import Mathlib

/-!
Verification of the vaapipostprocess postprocessing element
(gst/vaapi/gstvaapipostprocess.c) against its natural-language
specification.  Each section embeds the relevant C functions as Lean
definitions and proves or refutes the frozen claims about them.
-/

set_option maxHeartbeats 1000000

namespace VaapiPostprocess

/-! ## Dirty-flag engine (`update_filter`, lines 618-748)

The element keeps one dirty bit per operation in the `flags` bitmask and
the configured value of each operation in dedicated fields.  `update_filter`
walks the dirty operations in a fixed order, pushes each value into the
filter (the Filter Engine), and clears a dirty bit when the pushed value
equals the engine's reported default.  Pushes can fail; most failures
abort the whole call (`return FALSE`), modelled as `none`. -/

/-- The operations whose dirty bits `update_filter` reads or writes,
one constructor per `GST_VAAPI_POSTPROCESS_FLAG_*` bit it touches. -/
inductive Op where
  | format
  | denoise
  | sharpen
  | hue
  | saturation
  | brightness
  | contrast
  | scaleMethod
  | videoDirection
  | crop
  | skintoneLevel
  | skintone
  deriving DecidableEq, Repr

/-- `GstVideoOrientationMethod` values used by the video-direction code. -/
inductive Direction where
  | identity
  | rot90r
  | rot180
  | rot90l
  | horiz
  | vert
  | ulLr
  | urLl
  | auto
  deriving DecidableEq, Repr

/-- The configured operation values of the element
(`postprocess->denoise_level`, `->hue`, ..., `->crop_left`, ...).
Numeric levels are modelled as integers: `update_filter` only compares
them for equality with the engine defaults. -/
structure Vals where
  format : Int
  denoise_level : Int
  sharpen_level : Int
  hue : Int
  saturation : Int
  brightness : Int
  contrast : Int
  scale_method : Int
  video_direction : Direction
  tag_video_direction : Direction
  crop_left : Nat
  crop_right : Nat
  crop_top : Nat
  crop_bottom : Nat
  skintone_value : Int
  skintone_enhance : Bool
  deriving Repr

/-- The parameter state seen by `update_filter`: the dirty bitmask
(`postprocess->flags`, one bit per `Op`) plus the configured values. -/
structure PState where
  flags : Op → Bool
  vals : Vals

/-- The Filter Engine as seen by `update_filter`: for each pushed
operation, whether `gst_vaapi_filter_set_*` succeeds on a given value,
and the default value reported by `gst_vaapi_filter_get_*_default`. -/
structure Filter where
  set_format_ok : Int → Bool
  set_denoise_ok : Int → Bool
  denoise_default : Int
  set_sharpen_ok : Int → Bool
  sharpen_default : Int
  set_hue_ok : Int → Bool
  hue_default : Int
  set_saturation_ok : Int → Bool
  saturation_default : Int
  set_brightness_ok : Int → Bool
  brightness_default : Int
  set_contrast_ok : Int → Bool
  contrast_default : Int
  set_scaling_ok : Int → Bool
  scaling_default : Int
  set_video_direction_ok : Direction → Bool
  video_direction_default : Direction
  set_skintone_level_ok : Int → Bool
  skintone_level_default : Int
  set_skintone_ok : Bool → Bool
  skintone_default : Bool

/-- Clear one operation's dirty bit (`postprocess->flags &= ~(...)`). -/
def clearOp (p : PState) (o : Op) : PState :=
  { p with flags := fun x => if x = o then false else p.flags x }

@[simp] theorem clearOp_vals (p : PState) (o : Op) : (clearOp p o).vals = p.vals := rfl

@[simp] theorem clearOp_flags (p : PState) (o o' : Op) :
    (clearOp p o).flags o' = if o' = o then false else p.flags o' := rfl

/-- The shared shape of the per-value-operation blocks of `update_filter`:
`if (flags & OP) { if (!set(value)) return FALSE;
  if (get_default() == value) flags &= ~OP; }`.
`dirty` is the operation's current dirty bit, `ok` whether the push
succeeds, `isDefault` whether the pushed value equals the engine default. -/
def pushClear (dirty ok isDefault : Bool) (o : Op) (p : PState) : Option PState :=
  if dirty then
    if !ok then none
    else if isDefault then some (clearOp p o)
    else some p
  else some p

/-- Lines 622-624: push the target pixel format; a failed push aborts.
The format dirty bit is never cleared here. -/
def step_format (f : Filter) (p : PState) : Option PState :=
  if p.flags .format && !(f.set_format_ok p.vals.format) then none else some p

/-- Lines 626-634: push the denoising level; abort on failure; clear the
bit when the level equals the engine default. -/
def step_denoise (f : Filter) (p : PState) : Option PState :=
  pushClear (p.flags .denoise) (f.set_denoise_ok p.vals.denoise_level)
    (f.denoise_default == p.vals.denoise_level) .denoise p

/-- Lines 636-644: same pattern for the sharpening level. -/
def step_sharpen (f : Filter) (p : PState) : Option PState :=
  pushClear (p.flags .sharpen) (f.set_sharpen_ok p.vals.sharpen_level)
    (f.sharpen_default == p.vals.sharpen_level) .sharpen p

/-- Lines 646-652: same pattern for hue. -/
def step_hue (f : Filter) (p : PState) : Option PState :=
  pushClear (p.flags .hue) (f.set_hue_ok p.vals.hue)
    (f.hue_default == p.vals.hue) .hue p

/-- Lines 654-662: same pattern for saturation. -/
def step_saturation (f : Filter) (p : PState) : Option PState :=
  pushClear (p.flags .saturation) (f.set_saturation_ok p.vals.saturation)
    (f.saturation_default == p.vals.saturation) .saturation p

/-- Lines 664-672: same pattern for brightness. -/
def step_brightness (f : Filter) (p : PState) : Option PState :=
  pushClear (p.flags .brightness) (f.set_brightness_ok p.vals.brightness)
    (f.brightness_default == p.vals.brightness) .brightness p

/-- Lines 674-681: same pattern for contrast. -/
def step_contrast (f : Filter) (p : PState) : Option PState :=
  pushClear (p.flags .contrast) (f.set_contrast_ok p.vals.contrast)
    (f.contrast_default == p.vals.contrast) .contrast p

/-- Lines 683-691: same pattern for the scaling method. -/
def step_scale (f : Filter) (p : PState) : Option PState :=
  pushClear (p.flags .scaleMethod) (f.set_scaling_ok p.vals.scale_method)
    (f.scaling_default == p.vals.scale_method) .scaleMethod p

/-- The direction actually pushed (lines 694-696): the explicit property,
or the direction from the orientation tag when the property is `auto`. -/
def resolved_direction (v : Vals) : Direction :=
  if v.video_direction = .auto then v.tag_video_direction else v.video_direction

/-- Lines 693-711: push the resolved video direction.  A failed push only
emits a warning ("Don't return FALSE because other filters might be set");
the call continues.  The bit is cleared when the resolved direction equals
the engine default. -/
def step_video_direction (f : Filter) (p : PState) : Option PState :=
  if p.flags .videoDirection then
    let method := resolved_direction p.vals
    let _warn_only := f.set_video_direction_ok method
    if f.video_direction_default = method then some (clearOp p .videoDirection)
    else some p
  else some p

/-- Lines 713-716: nothing is pushed for crop; the bit is cleared when
all four margins are zero (bitwise-or of the guint margins is 0). -/
def step_crop (p : PState) : Option PState :=
  if p.flags .crop &&
      ((p.vals.crop_left ||| p.vals.crop_right ||| p.vals.crop_top |||
        p.vals.crop_bottom) == 0) then
    some (clearOp p .crop)
  else some p

/-- Lines 718-745: push the skin-tone level when its bit is set, clearing
its bit when equal to the default, and unconditionally clearing the
deprecated skin-tone bit; otherwise push the deprecated boolean skin-tone
value with the usual clear-if-default rule. -/
def step_skintone (f : Filter) (p : PState) : Option PState :=
  if p.flags .skintoneLevel then
    if !(f.set_skintone_level_ok p.vals.skintone_value) then none
    else
      let p1 := if f.skintone_level_default = p.vals.skintone_value then
          clearOp p .skintoneLevel else p
      some (clearOp p1 .skintone)
  else
    pushClear (p.flags .skintone) (f.set_skintone_ok p.vals.skintone_enhance)
      (f.skintone_default == p.vals.skintone_enhance) .skintone p

/-- `update_filter` (lines 618-748): the sequential composition of the
per-operation blocks, aborting (`none`) at the first failed push. -/
def update_filter (f : Filter) (p : PState) : Option PState :=
  (step_format f p).bind fun p =>
  (step_denoise f p).bind fun p =>
  (step_sharpen f p).bind fun p =>
  (step_hue f p).bind fun p =>
  (step_saturation f p).bind fun p =>
  (step_brightness f p).bind fun p =>
  (step_contrast f p).bind fun p =>
  (step_scale f p).bind fun p =>
  (step_video_direction f p).bind fun p =>
  (step_crop p).bind fun p =>
  step_skintone f p

/-! ### Characterization of `update_filter` -/

theorem pushClear_eq_none {d ok isdef : Bool} {o : Op} {p : PState} :
    pushClear d ok isdef o p = none ↔ d = true ∧ ok = false := by
  cases d <;> cases ok <;> cases isdef <;> simp [pushClear]

theorem pushClear_some {d ok isdef : Bool} {o : Op} {p q : PState}
    (h : pushClear d ok isdef o p = some q) (hd : d = p.flags o) :
    q.vals = p.vals ∧ ∀ o', q.flags o' = if o' = o then d && !isdef else p.flags o' := by
  subst hd
  cases hfl : p.flags o <;> cases ok <;> cases isdef <;>
    simp [pushClear, hfl] at h <;> subst h <;>
    refine ⟨rfl, fun o' => ?_⟩ <;> by_cases ho : o' = o <;> simp [ho, hfl]

theorem step_format_eq_none {f : Filter} {p : PState} :
    step_format f p = none ↔
      p.flags .format = true ∧ f.set_format_ok p.vals.format = false := by
  unfold step_format
  cases hfl : p.flags Op.format <;> cases hok : f.set_format_ok p.vals.format <;> simp

theorem step_format_some {f : Filter} {p q : PState}
    (h : step_format f p = some q) : q = p := by
  unfold step_format at h
  split at h
  · exact absurd h (by simp)
  · exact (Option.some_inj.mp h).symm

theorem step_video_direction_some {f : Filter} {p q : PState}
    (h : step_video_direction f p = some q) :
    q.vals = p.vals ∧ ∀ o', q.flags o' =
      if o' = Op.videoDirection then
        p.flags .videoDirection &&
          !(f.video_direction_default == resolved_direction p.vals)
      else p.flags o' := by
  unfold step_video_direction at h
  cases hfl : p.flags Op.videoDirection <;> simp [hfl] at h
  · subst h
    refine ⟨rfl, fun o' => ?_⟩
    by_cases ho : o' = Op.videoDirection <;> simp [ho, hfl]
  · by_cases hdef : f.video_direction_default = resolved_direction p.vals <;>
      simp [hdef] at h <;> subst h <;> refine ⟨rfl, fun o' => ?_⟩ <;>
      by_cases ho : o' = Op.videoDirection <;> simp [ho, hfl, hdef]

theorem step_video_direction_ne_none {f : Filter} {p : PState} :
    step_video_direction f p ≠ none := by
  unfold step_video_direction
  cases hfl : p.flags Op.videoDirection <;> simp [hfl]
  split <;> simp

theorem step_crop_some {p q : PState} (h : step_crop p = some q) :
    q.vals = p.vals ∧ ∀ o', q.flags o' =
      if o' = Op.crop then
        p.flags .crop &&
          !((p.vals.crop_left ||| p.vals.crop_right ||| p.vals.crop_top |||
             p.vals.crop_bottom) == 0)
      else p.flags o' := by
  unfold step_crop at h
  cases hfl : p.flags Op.crop <;>
    cases hz : ((p.vals.crop_left ||| p.vals.crop_right ||| p.vals.crop_top |||
        p.vals.crop_bottom) == 0) <;>
    simp [hfl, hz] at h <;> subst h <;> refine ⟨rfl, fun o' => ?_⟩ <;>
    by_cases ho : o' = Op.crop <;> simp [ho, hfl]

theorem step_crop_ne_none {p : PState} : step_crop p ≠ none := by
  unfold step_crop
  split <;> simp

theorem step_skintone_eq_none {f : Filter} {p : PState} :
    step_skintone f p = none ↔
      (p.flags .skintoneLevel = true ∧
        f.set_skintone_level_ok p.vals.skintone_value = false) ∨
      (p.flags .skintoneLevel = false ∧ p.flags .skintone = true ∧
        f.set_skintone_ok p.vals.skintone_enhance = false) := by
  unfold step_skintone
  cases hfl : p.flags Op.skintoneLevel
  · simp [pushClear_eq_none]
  · cases hok : f.set_skintone_level_ok p.vals.skintone_value <;> simp [hok]

theorem step_skintone_some {f : Filter} {p q : PState}
    (h : step_skintone f p = some q) :
    q.vals = p.vals ∧ ∀ o', q.flags o' =
      if o' = Op.skintoneLevel then
        p.flags .skintoneLevel && !(f.skintone_level_default == p.vals.skintone_value)
      else if o' = Op.skintone then
        if p.flags .skintoneLevel then false
        else p.flags .skintone && !(f.skintone_default == p.vals.skintone_enhance)
      else p.flags o' := by
  unfold step_skintone at h
  cases hfl : p.flags Op.skintoneLevel <;> simp [hfl] at h
  · have := pushClear_some h rfl
    refine ⟨this.1, fun o' => ?_⟩
    rw [this.2 o']
    by_cases h1 : o' = Op.skintoneLevel <;> by_cases h2 : o' = Op.skintone <;>
      simp_all
  · cases hok : f.set_skintone_level_ok p.vals.skintone_value <;> simp [hok] at h
    by_cases hdef : f.skintone_level_default = p.vals.skintone_value <;>
      simp [hdef] at h <;> subst h <;> refine ⟨rfl, fun o' => ?_⟩ <;>
      by_cases h1 : o' = Op.skintoneLevel <;> by_cases h2 : o' = Op.skintone <;>
      simp_all

/-- The exact condition under which `update_filter` returns FALSE: some
dirty operation's push into the filter failed — video-direction excepted
(its failure is only warned about), and the deprecated skin-tone push is
only attempted when the newer skin-tone level operation is clean. -/
def ufFail (f : Filter) (p : PState) : Bool :=
  (p.flags .format && !(f.set_format_ok p.vals.format)) ||
  (p.flags .denoise && !(f.set_denoise_ok p.vals.denoise_level)) ||
  (p.flags .sharpen && !(f.set_sharpen_ok p.vals.sharpen_level)) ||
  (p.flags .hue && !(f.set_hue_ok p.vals.hue)) ||
  (p.flags .saturation && !(f.set_saturation_ok p.vals.saturation)) ||
  (p.flags .brightness && !(f.set_brightness_ok p.vals.brightness)) ||
  (p.flags .contrast && !(f.set_contrast_ok p.vals.contrast)) ||
  (p.flags .scaleMethod && !(f.set_scaling_ok p.vals.scale_method)) ||
  (p.flags .skintoneLevel && !(f.set_skintone_level_ok p.vals.skintone_value)) ||
  (!p.flags .skintoneLevel && p.flags .skintone &&
    !(f.set_skintone_ok p.vals.skintone_enhance))

/-- The dirty bits after a successful `update_filter` run, as a function
of the initial state: each default-compared operation keeps its bit
exactly when it was dirty and its pushed value differs from the engine
default; the format bit is untouched; crop is cleared when all margins
are zero; the deprecated skin-tone bit is forced clear whenever the
skin-tone level operation was dirty. -/
def ufFlags (f : Filter) (p : PState) : Op → Bool
  | .format => p.flags .format
  | .denoise => p.flags .denoise && !(f.denoise_default == p.vals.denoise_level)
  | .sharpen => p.flags .sharpen && !(f.sharpen_default == p.vals.sharpen_level)
  | .hue => p.flags .hue && !(f.hue_default == p.vals.hue)
  | .saturation => p.flags .saturation && !(f.saturation_default == p.vals.saturation)
  | .brightness => p.flags .brightness && !(f.brightness_default == p.vals.brightness)
  | .contrast => p.flags .contrast && !(f.contrast_default == p.vals.contrast)
  | .scaleMethod => p.flags .scaleMethod && !(f.scaling_default == p.vals.scale_method)
  | .videoDirection =>
      p.flags .videoDirection &&
        !(f.video_direction_default == resolved_direction p.vals)
  | .crop =>
      p.flags .crop &&
        !((p.vals.crop_left ||| p.vals.crop_right ||| p.vals.crop_top |||
           p.vals.crop_bottom) == 0)
  | .skintoneLevel =>
      p.flags .skintoneLevel && !(f.skintone_level_default == p.vals.skintone_value)
  | .skintone =>
      if p.flags .skintoneLevel then false
      else p.flags .skintone && !(f.skintone_default == p.vals.skintone_enhance)

theorem update_filter_some_spec {f : Filter} {p q : PState}
    (h : update_filter f p = some q) :
    q.vals = p.vals ∧ ∀ o, q.flags o = ufFlags f p o := by
  unfold update_filter at h
  obtain ⟨p1, h1, hr1⟩ := Option.bind_eq_some.mp h
  obtain ⟨p2, h2, hr2⟩ := Option.bind_eq_some.mp hr1
  obtain ⟨p3, h3, hr3⟩ := Option.bind_eq_some.mp hr2
  obtain ⟨p4, h4, hr4⟩ := Option.bind_eq_some.mp hr3
  obtain ⟨p5, h5, hr5⟩ := Option.bind_eq_some.mp hr4
  obtain ⟨p6, h6, hr6⟩ := Option.bind_eq_some.mp hr5
  obtain ⟨p7, h7, hr7⟩ := Option.bind_eq_some.mp hr6
  obtain ⟨p8, h8, hr8⟩ := Option.bind_eq_some.mp hr7
  obtain ⟨p9, h9, hr9⟩ := Option.bind_eq_some.mp hr8
  obtain ⟨p10, h10, hr10⟩ := Option.bind_eq_some.mp hr9
  have e1 := step_format_some h1; subst e1
  obtain ⟨v2, fl2⟩ := pushClear_some h2 rfl
  obtain ⟨v3, fl3⟩ := pushClear_some h3 rfl
  obtain ⟨v4, fl4⟩ := pushClear_some h4 rfl
  obtain ⟨v5, fl5⟩ := pushClear_some h5 rfl
  obtain ⟨v6, fl6⟩ := pushClear_some h6 rfl
  obtain ⟨v7, fl7⟩ := pushClear_some h7 rfl
  obtain ⟨v8, fl8⟩ := pushClear_some h8 rfl
  obtain ⟨v9, fl9⟩ := step_video_direction_some h9
  obtain ⟨v10, fl10⟩ := step_crop_some h10
  obtain ⟨v11, fl11⟩ := step_skintone_some hr10
  refine ⟨by rw [v11, v10, v9, v8, v7, v6, v5, v4, v3, v2], fun o => ?_⟩
  have hv9 : p9.vals = p1.vals := by rw [v9, v8, v7, v6, v5, v4, v3, v2]
  have hv10 : p10.vals = p1.vals := by rw [v10, hv9]
  cases o <;>
    simp [ufFlags, fl11, fl10, fl9, fl8, fl7, fl6, fl5, fl4,
      fl3, fl2, v2, v3, v4, v5, v6, v7, v8, hv9, hv10]

theorem pushClear_some_cond {d ok isdef : Bool} {o : Op} {p q : PState}
    (h : pushClear d ok isdef o p = some q) : (d && !ok) = false := by
  cases d <;> cases ok <;> cases isdef <;> simp_all [pushClear]

theorem update_filter_none_iff (f : Filter) (p : PState) :
    update_filter f p = none ↔ ufFail f p = true := by
  unfold update_filter
  cases hs1 : step_format f p with
  | none =>
    obtain ⟨a1, a2⟩ := step_format_eq_none.mp hs1
    simp [ufFail, a1, a2]
  | some p1 =>
    have e1 := (step_format_some hs1).symm
    subst e1
    have d1 : (p.flags Op.format && !(f.set_format_ok p.vals.format)) = false := by
      cases hd : p.flags Op.format <;> cases ho : f.set_format_ok p.vals.format <;>
        simp_all [step_format]
    simp only [hs1, Option.some_bind]
    cases hs2 : step_denoise f p with
    | none =>
      obtain ⟨a1, a2⟩ := pushClear_eq_none.mp hs2
      simp [ufFail, a1, a2]
    | some p2 =>
    obtain ⟨v2, fl2⟩ := pushClear_some hs2 rfl
    have d2 := pushClear_some_cond hs2
    simp only [hs2, Option.some_bind]
    cases hs3 : step_sharpen f p2 with
    | none =>
      obtain ⟨a1, a2⟩ := pushClear_eq_none.mp hs3
      simp only [fl2] at a1
      rw [v2] at a2
      simp at a1
      simp [ufFail, a1, a2]
    | some p3 =>
    obtain ⟨v3, fl3⟩ := pushClear_some hs3 rfl
    have d3 := pushClear_some_cond hs3
    rw [show p2.flags Op.sharpen = p.flags Op.sharpen by simp [fl2], v2] at d3
    have hv3 : p3.vals = p.vals := v3.trans v2
    simp only [hs3, Option.some_bind]
    cases hs4 : step_hue f p3 with
    | none =>
      obtain ⟨a1, a2⟩ := pushClear_eq_none.mp hs4
      simp only [fl3, fl2] at a1
      rw [hv3] at a2
      simp at a1
      simp [ufFail, a1, a2]
    | some p4 =>
    obtain ⟨v4, fl4⟩ := pushClear_some hs4 rfl
    have d4 := pushClear_some_cond hs4
    rw [show p3.flags Op.hue = p.flags Op.hue by simp [fl3, fl2], hv3] at d4
    have hv4 : p4.vals = p.vals := v4.trans hv3
    simp only [hs4, Option.some_bind]
    cases hs5 : step_saturation f p4 with
    | none =>
      obtain ⟨a1, a2⟩ := pushClear_eq_none.mp hs5
      simp only [fl4, fl3, fl2] at a1
      rw [hv4] at a2
      simp at a1
      simp [ufFail, a1, a2]
    | some p5 =>
    obtain ⟨v5, fl5⟩ := pushClear_some hs5 rfl
    have d5 := pushClear_some_cond hs5
    rw [show p4.flags Op.saturation = p.flags Op.saturation by
      simp [fl4, fl3, fl2], hv4] at d5
    have hv5 : p5.vals = p.vals := v5.trans hv4
    simp only [hs5, Option.some_bind]
    cases hs6 : step_brightness f p5 with
    | none =>
      obtain ⟨a1, a2⟩ := pushClear_eq_none.mp hs6
      simp only [fl5, fl4, fl3, fl2] at a1
      rw [hv5] at a2
      simp at a1
      simp [ufFail, a1, a2]
    | some p6 =>
    obtain ⟨v6, fl6⟩ := pushClear_some hs6 rfl
    have d6 := pushClear_some_cond hs6
    rw [show p5.flags Op.brightness = p.flags Op.brightness by
      simp [fl5, fl4, fl3, fl2], hv5] at d6
    have hv6 : p6.vals = p.vals := v6.trans hv5
    simp only [hs6, Option.some_bind]
    cases hs7 : step_contrast f p6 with
    | none =>
      obtain ⟨a1, a2⟩ := pushClear_eq_none.mp hs7
      simp only [fl6, fl5, fl4, fl3, fl2] at a1
      rw [hv6] at a2
      simp at a1
      simp [ufFail, a1, a2]
    | some p7 =>
    obtain ⟨v7, fl7⟩ := pushClear_some hs7 rfl
    have d7 := pushClear_some_cond hs7
    rw [show p6.flags Op.contrast = p.flags Op.contrast by
      simp [fl6, fl5, fl4, fl3, fl2], hv6] at d7
    have hv7 : p7.vals = p.vals := v7.trans hv6
    simp only [hs7, Option.some_bind]
    cases hs8 : step_scale f p7 with
    | none =>
      obtain ⟨a1, a2⟩ := pushClear_eq_none.mp hs8
      simp only [fl7, fl6, fl5, fl4, fl3, fl2] at a1
      rw [hv7] at a2
      simp at a1
      simp [ufFail, a1, a2]
    | some p8 =>
    obtain ⟨v8, fl8⟩ := pushClear_some hs8 rfl
    have d8 := pushClear_some_cond hs8
    rw [show p7.flags Op.scaleMethod = p.flags Op.scaleMethod by
      simp [fl7, fl6, fl5, fl4, fl3, fl2], hv7] at d8
    have hv8 : p8.vals = p.vals := v8.trans hv7
    simp only [hs8, Option.some_bind]
    cases hs9 : step_video_direction f p8 with
    | none => exact absurd hs9 step_video_direction_ne_none
    | some p9 =>
    obtain ⟨v9, fl9⟩ := step_video_direction_some hs9
    have hv9 : p9.vals = p.vals := v9.trans hv8
    simp only [hs9, Option.some_bind]
    cases hs10 : step_crop p9 with
    | none => exact absurd hs10 step_crop_ne_none
    | some p10 =>
    obtain ⟨v10, fl10⟩ := step_crop_some hs10
    have hv10 : p10.vals = p.vals := v10.trans hv9
    simp only [hs10, Option.some_bind]
    rw [step_skintone_eq_none]
    rw [show p10.flags Op.skintoneLevel = p.flags Op.skintoneLevel by
      simp [fl10, fl9, fl8, fl7, fl6, fl5, fl4, fl3, fl2]]
    rw [show p10.flags Op.skintone = p.flags Op.skintone by
      simp [fl10, fl9, fl8, fl7, fl6, fl5, fl4, fl3, fl2]]
    rw [hv10]
    simp only [ufFail, d1, d2, d3, d4, d5, d6, d7, d8, Bool.false_or]
    cases h1 : p.flags Op.skintoneLevel <;>
      cases h2 : f.set_skintone_level_ok p.vals.skintone_value <;>
      cases h3 : p.flags Op.skintone <;>
      cases h4 : f.set_skintone_ok p.vals.skintone_enhance <;> simp

/-! ### Concrete instances used as witnesses and counterexamples -/

/-- A filter that accepts every push and reports fixed defaults. -/
def allOkFilter : Filter where
  set_format_ok := fun _ => true
  set_denoise_ok := fun _ => true
  denoise_default := 0
  set_sharpen_ok := fun _ => true
  sharpen_default := 0
  set_hue_ok := fun _ => true
  hue_default := 0
  set_saturation_ok := fun _ => true
  saturation_default := 0
  set_brightness_ok := fun _ => true
  brightness_default := 0
  set_contrast_ok := fun _ => true
  contrast_default := 0
  set_scaling_ok := fun _ => true
  scaling_default := 0
  set_video_direction_ok := fun _ => true
  video_direction_default := .identity
  set_skintone_level_ok := fun _ => true
  skintone_level_default := 0
  set_skintone_ok := fun _ => true
  skintone_default := false

def zeroVals : Vals where
  format := 0
  denoise_level := 0
  sharpen_level := 0
  hue := 0
  saturation := 0
  brightness := 0
  contrast := 0
  scale_method := 0
  video_direction := .identity
  tag_video_direction := .identity
  crop_left := 0
  crop_right := 0
  crop_top := 0
  crop_bottom := 0
  skintone_value := 0
  skintone_enhance := false

/-- Element state with no dirty operation. -/
def pClean : PState := ⟨fun _ => false, zeroVals⟩

/-- Element state with both skin-tone operations dirty and the deprecated
skin-tone value different from the engine default. -/
def pSkintone : PState :=
  ⟨fun o => match o with
    | Op.skintoneLevel => true
    | Op.skintone => true
    | _ => false,
   { zeroVals with skintone_value := 5, skintone_enhance := true }⟩

/-- A filter whose video-direction push always fails. -/
def vdFailFilter : Filter :=
  { allOkFilter with
    set_video_direction_ok := fun _ => false
    video_direction_default := Direction.rot180 }

/-- Element state with only the video-direction operation dirty. -/
def pVideoDir : PState :=
  ⟨fun o => match o with
    | Op.videoDirection => true
    | _ => false,
   zeroVals⟩

/-! ### Claim C1 -/

/-- **C1 counterexample.**  The claim states that every dirty operation
keeps its dirty bit after a successful apply exactly when its applied
value differs from the engine default.  Concretely: with both skin-tone
operations dirty and the deprecated skin-tone value (`true`) different
from its engine default (`false`), `update_filter` succeeds and still
clears the deprecated skin-tone dirty bit (source lines 727-732 clear it
unconditionally when the skin-tone level operation is in use). -/
theorem c1_counterexample :
    pSkintone.flags Op.skintone = true ∧
    allOkFilter.skintone_default ≠ pSkintone.vals.skintone_enhance ∧
    Option.map (fun q => q.flags Op.skintone) (update_filter allOkFilter pSkintone) =
      some false :=
  ⟨rfl, by decide, rfl⟩

/-- **C1 (amended).**  After a successful `update_filter`, every
default-compared operation (denoise, sharpen, hue, saturation,
brightness, contrast, scale method, video direction with its resolved
value, skin-tone level) keeps its dirty bit exactly when it was dirty and
its pushed value differs from the engine's reported default — and so an
operation whose applied value differs from the default keeps its bit.
The deprecated skin-tone operation follows the same rule only when the
skin-tone level operation is clean; otherwise its bit is cleared
unconditionally. -/
theorem c1_dirty_bit_cleared_iff_default {f : Filter} {p q : PState}
    (h : update_filter f p = some q) :
    q.flags .denoise =
      (p.flags .denoise && !(f.denoise_default == p.vals.denoise_level)) ∧
    q.flags .sharpen =
      (p.flags .sharpen && !(f.sharpen_default == p.vals.sharpen_level)) ∧
    q.flags .hue = (p.flags .hue && !(f.hue_default == p.vals.hue)) ∧
    q.flags .saturation =
      (p.flags .saturation && !(f.saturation_default == p.vals.saturation)) ∧
    q.flags .brightness =
      (p.flags .brightness && !(f.brightness_default == p.vals.brightness)) ∧
    q.flags .contrast =
      (p.flags .contrast && !(f.contrast_default == p.vals.contrast)) ∧
    q.flags .scaleMethod =
      (p.flags .scaleMethod && !(f.scaling_default == p.vals.scale_method)) ∧
    q.flags .videoDirection =
      (p.flags .videoDirection &&
        !(f.video_direction_default == resolved_direction p.vals)) ∧
    q.flags .skintoneLevel =
      (p.flags .skintoneLevel && !(f.skintone_level_default == p.vals.skintone_value)) ∧
    (p.flags .skintoneLevel = false →
      q.flags .skintone =
        (p.flags .skintone && !(f.skintone_default == p.vals.skintone_enhance))) ∧
    (p.flags .skintoneLevel = true → q.flags .skintone = false) := by
  obtain ⟨hv, hfl⟩ := update_filter_some_spec h
  refine ⟨hfl Op.denoise, hfl Op.sharpen, hfl Op.hue, hfl Op.saturation,
    hfl Op.brightness, hfl Op.contrast, hfl Op.scaleMethod, hfl Op.videoDirection,
    hfl Op.skintoneLevel, fun hsl => ?_, fun hsl => ?_⟩
  · rw [hfl Op.skintone]; simp [ufFlags, hsl]
  · rw [hfl Op.skintone]; simp [ufFlags, hsl]

/-- Witness for `c1_dirty_bit_cleared_iff_default` at a concrete input. -/
theorem c1_dirty_bit_cleared_iff_default_witness :
    update_filter allOkFilter pClean = some pClean ∧
    (pClean.flags .denoise =
      (pClean.flags .denoise &&
        !(allOkFilter.denoise_default == pClean.vals.denoise_level)) ∧
    pClean.flags .sharpen =
      (pClean.flags .sharpen &&
        !(allOkFilter.sharpen_default == pClean.vals.sharpen_level)) ∧
    pClean.flags .hue =
      (pClean.flags .hue && !(allOkFilter.hue_default == pClean.vals.hue)) ∧
    pClean.flags .saturation =
      (pClean.flags .saturation &&
        !(allOkFilter.saturation_default == pClean.vals.saturation)) ∧
    pClean.flags .brightness =
      (pClean.flags .brightness &&
        !(allOkFilter.brightness_default == pClean.vals.brightness)) ∧
    pClean.flags .contrast =
      (pClean.flags .contrast &&
        !(allOkFilter.contrast_default == pClean.vals.contrast)) ∧
    pClean.flags .scaleMethod =
      (pClean.flags .scaleMethod &&
        !(allOkFilter.scaling_default == pClean.vals.scale_method)) ∧
    pClean.flags .videoDirection =
      (pClean.flags .videoDirection &&
        !(allOkFilter.video_direction_default == resolved_direction pClean.vals)) ∧
    pClean.flags .skintoneLevel =
      (pClean.flags .skintoneLevel &&
        !(allOkFilter.skintone_level_default == pClean.vals.skintone_value)) ∧
    (pClean.flags .skintoneLevel = false →
      pClean.flags .skintone =
        (pClean.flags .skintone &&
          !(allOkFilter.skintone_default == pClean.vals.skintone_enhance))) ∧
    (pClean.flags .skintoneLevel = true → pClean.flags .skintone = false)) :=
  ⟨rfl, c1_dirty_bit_cleared_iff_default rfl⟩

/-! ### Claim C2 -/

/-- **C2 counterexample.**  The claim states that a failed push of any
dirty operation fails the whole `update_filter` call.  Concretely: with
only the video-direction operation dirty and its push failing, the call
still succeeds (source lines 698-706 only emit a warning: "Don't return
FALSE because other filters might be set"). -/
theorem c2_counterexample :
    pVideoDir.flags Op.videoDirection = true ∧
    vdFailFilter.set_video_direction_ok (resolved_direction pVideoDir.vals) = false ∧
    (update_filter vdFailFilter pVideoDir).isSome = true :=
  ⟨rfl, rfl, rfl⟩

/-- **C2 (amended).**  `update_filter` fails exactly when the push of
some dirty operation other than video-direction fails: the format value
when the format bit is set, one of the default-compared value pushes for
a dirty operation, the skin-tone level push, or — only when the skin-tone
level operation is clean — the deprecated skin-tone push.  A failing
video-direction push never fails the call. -/
theorem c2_push_failure_fails_call (f : Filter) (p : PState) :
    update_filter f p = none ↔ ufFail f p = true :=
  update_filter_none_iff f p

/-! ## Deinterlacing method selection
(`get_next_deint_method`, lines 510-523; `set_best_deint_method`,
lines 525-541; `deint_method_is_advanced`, lines 493-508) -/

/-- `GstVaapiDeinterlaceMethod`: the deinterlacing methods. -/
inductive DeintMethod where
  | noneM
  | bob
  | weave
  | motionAdaptive
  | motionCompensated
  deriving DecidableEq, Repr

/-- `deint_method_is_advanced` (lines 493-508): motion-adaptive and
motion-compensated are the advanced (reference-using) methods. -/
def deint_method_is_advanced : DeintMethod → Bool
  | .motionAdaptive => true
  | .motionCompensated => true
  | _ => false

/-- `get_next_deint_method` (lines 510-523): degrade motion-compensated
to motion-adaptive; everything else defaults to basic bob. -/
def get_next_deint_method : DeintMethod → DeintMethod
  | .motionCompensated => .motionAdaptive
  | _ => .bob

/-- Rank used to show the fallback loop terminates. -/
def deintMethodRank : DeintMethod → Nat
  | .motionCompensated => 2
  | .bob => 0
  | _ => 1

/-- The loop body of `set_best_deint_method` (lines 532-538): try the
current method; stop on success or once bob is reached; otherwise degrade
and retry.  `accept` is `gst_vaapi_filter_set_deinterlacing` with the
flags fixed. -/
def set_best_deint_method_loop (accept : DeintMethod → Bool) (m : DeintMethod) :
    DeintMethod × Bool :=
  let success := accept m
  if success || m == .bob then (m, success)
  else set_best_deint_method_loop accept (get_next_deint_method m)
termination_by deintMethodRank m
decreasing_by
  cases m <;> simp_all [get_next_deint_method, deintMethodRank]

/-- `set_best_deint_method` (lines 525-541), started from the configured
`postprocess->deinterlace_method`. -/
def set_best_deint_method (accept : DeintMethod → Bool)
    (configured : DeintMethod) : DeintMethod × Bool :=
  set_best_deint_method_loop accept configured

/-- The degradation ladder followed from a starting method: the start,
then the strictly less advanced methods down to bob. -/
def deintLadder : DeintMethod → List DeintMethod
  | .motionCompensated => [.motionCompensated, .motionAdaptive, .bob]
  | .bob => [.bob]
  | m => [m, .bob]

theorem set_best_loop_find (accept : DeintMethod → Bool) (h : accept .bob = true)
    (m : DeintMethod) :
    set_best_deint_method_loop accept m =
      (((deintLadder m).find? accept).getD .bob, true) := by
  cases m
  case bob => simp [set_best_deint_method_loop, deintLadder, h]
  case motionCompensated =>
    cases h1 : accept .motionCompensated
    · cases h2 : accept .motionAdaptive
      · rw [set_best_deint_method_loop, set_best_deint_method_loop,
          set_best_deint_method_loop]
        simp [get_next_deint_method, deintLadder, h, h1, h2]
      · rw [set_best_deint_method_loop, set_best_deint_method_loop]
        simp [get_next_deint_method, deintLadder, h1, h2]
    · rw [set_best_deint_method_loop]
      simp [deintLadder, h1]
  case motionAdaptive =>
    cases h1 : accept .motionAdaptive
    · rw [set_best_deint_method_loop, set_best_deint_method_loop]
      simp [get_next_deint_method, deintLadder, h, h1]
    · rw [set_best_deint_method_loop]
      simp [deintLadder, h1]
  case noneM =>
    cases h1 : accept .noneM
    · rw [set_best_deint_method_loop, set_best_deint_method_loop]
      simp [get_next_deint_method, deintLadder, h, h1]
    · rw [set_best_deint_method_loop]
      simp [deintLadder, h1]
  case weave =>
    cases h1 : accept .weave
    · rw [set_best_deint_method_loop, set_best_deint_method_loop]
      simp [get_next_deint_method, deintLadder, h, h1]
    · rw [set_best_deint_method_loop]
      simp [deintLadder, h1]

/-! ### Claim C3 -/

/-- **C3.**  For every starting method and every backend acceptance
predicate that accepts bob, `set_best_deint_method` returns successfully
with the first method of the degradation ladder the backend accepts,
visiting each ladder entry at most once (the ladder has no duplicates);
the ladder from motion-compensated is motion-compensated, then
motion-adaptive, then bob; and requesting motion-compensated on a
backend that only supports bob yields bob being applied.  (The loop's
termination is established by the definition of
`set_best_deint_method_loop` itself, whose recursion decreases
`deintMethodRank`.) -/
theorem c3_deint_fallback_ladder (accept : DeintMethod → Bool)
    (m : DeintMethod) (h : accept .bob = true) :
    set_best_deint_method accept m =
      (((deintLadder m).find? accept).getD .bob, true) ∧
    (deintLadder m).Nodup ∧
    deintLadder .motionCompensated = [.motionCompensated, .motionAdaptive, .bob] ∧
    set_best_deint_method (fun x => x == .bob) .motionCompensated = (.bob, true) := by
  refine ⟨set_best_loop_find accept h m, ?_, rfl, ?_⟩
  · cases m <;> simp [deintLadder]
  · rw [set_best_deint_method, set_best_loop_find (fun x => x == .bob) rfl]
    rfl

/-- Witness for `c3_deint_fallback_ladder` on a bob-only backend starting
from motion-compensated. -/
theorem c3_deint_fallback_ladder_witness :
    ((fun x => x == DeintMethod.bob) DeintMethod.bob = true) ∧
    (set_best_deint_method (fun x => x == DeintMethod.bob) .motionCompensated =
      (((deintLadder .motionCompensated).find? (fun x => x == DeintMethod.bob)).getD
        .bob, true) ∧
    (deintLadder DeintMethod.motionCompensated).Nodup ∧
    deintLadder .motionCompensated = [.motionCompensated, .motionAdaptive, .bob] ∧
    set_best_deint_method (fun x => x == .bob) .motionCompensated = (.bob, true)) :=
  ⟨rfl, c3_deint_fallback_ladder (fun x => x == DeintMethod.bob) .motionCompensated rfl⟩

/-! ## Per-frame deinterlace decision
(`should_deinterlace_buffer`, lines 374-401) -/

/-- `GstVaapiDeinterlaceModeEss`: auto / forced (interlaced) / disabled. -/
inductive DeintMode where
  | auto
  | interlaced
  | disabled
  deriving DecidableEq, Repr

/-- `GstVideoInterlaceMode` values distinguished by the code (the last
two fall into the switch's default case). -/
inductive InterlaceMode where
  | progressive
  | interleaved
  | mixed
  | fields
  | alternate
  deriving DecidableEq, Repr

/-- `should_deinterlace_buffer` (lines 374-401): `flagDeinterlace` is the
element's `GST_VAAPI_POSTPROCESS_FLAG_DEINTERLACE` bit, `sinkInterlace`
the sink format's interlace mode, `bufInterlaced` the buffer's
`GST_VIDEO_BUFFER_FLAG_INTERLACED` flag. -/
def should_deinterlace_buffer (flagDeinterlace : Bool) (mode : DeintMode)
    (sinkInterlace : InterlaceMode) (bufInterlaced : Bool) : Bool :=
  if !flagDeinterlace || mode == .disabled then false
  else if mode == .interlaced then true
  else
    match sinkInterlace with
    | .interleaved => true
    | .progressive => false
    | .mixed => bufInterlaced
    | _ => false

/-! ### Claim C5 -/

/-- **C5.**  The per-frame decision is false when the element deinterlace
flag is unset or the mode is disabled; true when the mode is forced; and
in auto mode true exactly for an interleaved sink format, or a mixed one
with the buffer flagged interlaced — false for progressive (and for the
unhandled modes of the default case). -/
theorem c5_should_deinterlace_buffer (flagDeinterlace bufInterlaced : Bool)
    (mode : DeintMode) (sinkInterlace : InterlaceMode) :
    should_deinterlace_buffer flagDeinterlace mode sinkInterlace bufInterlaced =
      (flagDeinterlace && !(mode == .disabled) &&
        (mode == .interlaced ||
          (sinkInterlace == .interleaved ||
            (sinkInterlace == .mixed && bufInterlaced)))) := by
  cases flagDeinterlace <;> cases bufInterlaced <;> cases mode <;>
    cases sinkInterlace <;> decide

/-! ## Field timestamps and durations
(`gst_vaapipostprocess_update_sink_caps`, lines 1262-1264;
`gst_vaapipostprocess_process_vpp`, lines 980-981 and 1035-1044) -/

def GST_SECOND : Nat := 1000000000

/-- `postprocess->field_duration` as computed in `update_sink_caps`
(lines 1262-1264): `gst_util_uint64_scale (GST_SECOND, fps_d,
(1 + deinterlace) * fps_n)` when the frame rate is positive, else 0. -/
def field_duration (deinterlace : Bool) (fps_n fps_d : Nat) : Nat :=
  if 0 < fps_n then
    GST_SECOND * fps_d / ((1 + (if deinterlace then 1 else 0)) * fps_n)
  else 0

/-- The (timestamp, duration) pairs stamped on the outputs of
`process_vpp` for one input: with the deinterlace flag set, the pushed
first field (lines 980-981) and the returned second field (lines
1038-1039); without it, the single output with copied input timestamps
(line 1036). -/
def vpp_output_stamps (flagDeinterlace : Bool) (inTs inDur fieldDur : Nat) :
    List (Nat × Nat) :=
  if flagDeinterlace then [(inTs, fieldDur), (inTs + fieldDur, fieldDur)]
  else [(inTs, inDur)]

/-! ### Claim C6 -/

/-- **C6.**  With deinterlacing active, one input yields two outputs: the
first stamped with the input timestamp, the second with the input
timestamp plus the field duration, both with the field duration as
duration — and the field duration computed at caps time with
deinterlacing active is the stream frame duration (the value computed
without deinterlacing) halved. -/
theorem c6_field_timestamps (t d n dd : Nat) :
    vpp_output_stamps true t d (field_duration true n dd) =
      [(t, field_duration true n dd),
       (t + field_duration true n dd, field_duration true n dd)] ∧
    field_duration true n dd = field_duration false n dd / 2 := by
  refine ⟨rfl, ?_⟩
  unfold field_duration
  by_cases hn : 0 < n
  · simp only [hn, if_true, if_false, Bool.false_eq_true]
    rw [Nat.div_div_eq_div_mul]
    ring_nf
  · simp [hn]

/-! ## Basic (metadata-only) path picture structures
(`gst_vaapipostprocess_process`, lines 1136-1141 and 1157-1162) -/

/-- The picture-structure part of the render flags
(`GST_VAAPI_PICTURE_STRUCTURE_*`). -/
inductive PicStruct where
  | topField
  | bottomField
  | frame
  deriving DecidableEq, Repr

/-- Picture structure attached to the first emitted field (lines
1136-1141): top or bottom per the buffer's top-field-first flag when the
frame is deinterlaced, full frame otherwise. -/
def first_field_pic_struct (deint tff : Bool) : PicStruct :=
  if deint then (if tff then .topField else .bottomField) else .frame

/-- Picture structure attached to the second output (lines 1157-1162):
the opposite parity, or full frame when not deinterlaced. -/
def second_field_pic_struct (deint tff : Bool) : PicStruct :=
  if deint then (if tff then .bottomField else .topField) else .frame

/-! ### Claim C10 -/

/-- **C10.**  In the basic path, for a deinterlaced frame the first field
is marked top-field exactly when the input is top-field-first (bottom
otherwise) and the second output carries the opposite parity; for a
non-deinterlaced frame both outputs are marked as full frames. -/
theorem c10_basic_path_pic_structs :
    (∀ tff,
      (first_field_pic_struct true tff = .topField ↔ tff = true) ∧
      (first_field_pic_struct true tff = .bottomField ↔ tff = false) ∧
      (second_field_pic_struct true tff = .bottomField ↔
        first_field_pic_struct true tff = .topField) ∧
      (second_field_pic_struct true tff = .topField ↔
        first_field_pic_struct true tff = .bottomField)) ∧
    (∀ tff, first_field_pic_struct false tff = .frame ∧
      second_field_pic_struct false tff = .frame) := by
  decide

/-! ## Deinterlace history ring buffer
(`ds_reset`, lines 188-199; `ds_add_buffer`, lines 201-206;
`ds_get_buffer`, lines 208-217; `ds_set_surfaces`, lines 219-234; the
per-frame history handling of `gst_vaapipostprocess_process_vpp`, lines
894-919, 958-963, 1051-1052)

Buffers and their derived surfaces are modelled as natural-number
identifiers (`gst_vaapi_video_meta_get_surface` is a lookup, modelled as
the identity).  `N` is `G_N_ELEMENTS (ds->buffers)`, the fixed ring
capacity `GST_VAAPI_DEINTERLACE_MAX_REFERENCES` from the element's
header (not under src/); the spec fixes it only as a small constant, so
it is kept as a parameter.  `surfaces` holds the valid prefix of the
surfaces array, so `ds->num_surfaces` is its length. -/

/-- `GstVaapiDeinterlaceStateEss` for capacity `N`. -/
structure DSState (N : Nat) where
  buffers : Nat → Option Nat
  buffers_index : Nat
  surfaces : List Nat
  deint : Bool
  tff : Bool

/-- `ds_reset` (lines 188-199): drop every stored buffer, rewind the
cursor, zero the valid count and clear both condition flags. -/
def ds_reset {N : Nat} (_ds : DSState N) : DSState N :=
  { buffers := fun _ => none
    buffers_index := 0
    surfaces := []
    deint := false
    tff := false }

/-- `ds_add_buffer` (lines 201-206): store at the cursor, advance the
cursor modulo the capacity. -/
def ds_add_buffer {N : Nat} (ds : DSState N) (buf : Nat) : DSState N :=
  { ds with
    buffers := fun i => if i = ds.buffers_index then some buf else ds.buffers i
    buffers_index := (ds.buffers_index + 1) % N }

/-- `ds_get_buffer` (lines 208-217): index 0 is the most recent buffer,
higher indices reach further into the past. -/
def ds_get_buffer {N : Nat} (ds : DSState N) (i : Nat) : Option Nat :=
  ds.buffers ((ds.buffers_index + N - i - 1) % N)

/-- The loop of `ds_set_surfaces` (lines 225-233): collect surfaces from
most recent backwards, stopping at the first missing buffer or after
capacity many entries. -/
def collectRefs {N : Nat} (ds : DSState N) : Nat → Nat → List Nat
  | _, 0 => []
  | i, fuel + 1 =>
    match ds_get_buffer ds i with
    | none => []
    | some b => b :: collectRefs ds (i + 1) fuel

/-- `ds_set_surfaces` (lines 219-234). -/
def ds_set_surfaces {N : Nat} (ds : DSState N) : DSState N :=
  { ds with surfaces := collectRefs ds 0 N }

/-- The history handling `process_vpp` performs for one input frame
(lines 899-902, 918-919, 958-961, 1051-1052): reset when the per-frame
deinterlace decision changed, or when the valid count is non-zero and
the top-field-first flag changed; record the new flags; when
deinterlacing with an advanced method, refresh the surfaces array, hand
it to the engine (the returned list) and finally store this frame's
buffer.  `deint` is `should_deinterlace_buffer` for this frame and
`advanced` is `deint_method_is_advanced` of the method in use. -/
def vpp_history_step {N : Nat} (ds : DSState N) (buf : Nat)
    (tff deint advanced : Bool) : DSState N × List Nat :=
  let deint_changed := deint != ds.deint
  let ds1 := if deint_changed || (decide (0 < ds.surfaces.length) && (tff != ds.tff))
    then ds_reset ds else ds
  let ds2 := { ds1 with deint := deint, tff := tff }
  if deint && advanced then
    let ds3 := ds_set_surfaces ds2
    (ds_add_buffer ds3 buf, ds3.surfaces)
  else (ds2, [])

theorem collectRefs_length {N : Nat} (ds : DSState N) :
    ∀ fuel i, (collectRefs ds i fuel).length ≤ fuel := by
  intro fuel
  induction fuel with
  | zero => intro i; simp [collectRefs]
  | succ k ih =>
    intro i
    unfold collectRefs
    cases ds_get_buffer ds i with
    | none => simp
    | some b => simpa using ih (i + 1)

theorem collectRefs_empty {N : Nat} (ds : DSState N)
    (h : ∀ k, ds.buffers k = none) : ∀ fuel i, collectRefs ds i fuel = [] := by
  intro fuel i
  cases fuel with
  | zero => rfl
  | succ k => simp [collectRefs, ds_get_buffer, h]

/-! ### Claim C4 -/

/-- The empty history state (all slots free, cursor and count zero). -/
def dsInit : DSState 2 :=
  { buffers := fun _ => none, buffers_index := 0, surfaces := [],
    deint := false, tff := false }

/-- **C4 counterexample.**  The claim states that whenever the
top-field-first flag differs from the previous frame's, the history is
reset before the frame is processed, so a surface from before the parity
change is never supplied as a reference.  Concretely (capacity 2,
advanced deinterlacing active on both frames): frame one (surface 7,
tff = true) is stored with the valid count still zero; frame two flips
tff to false, yet the reset is skipped — line 901 guards it with
`ds->num_surfaces > 0`, which is still 0 — and surface 7 from the
tff = true era is supplied as a reference for the tff = false frame. -/
theorem c4_counterexample :
    (vpp_history_step dsInit 7 true true true).1.tff = true ∧
    (vpp_history_step (vpp_history_step dsInit 7 true true true).1
      8 false true true).2 = [7] := by
  constructor
  · rfl
  · rfl

/-- **C4 (amended).**  The history never exceeds its fixed capacity: the
reference list supplied to the engine and the stored valid count are
bounded by `N` (assuming the incoming count is).  The history is reset —
so no stale reference is supplied — whenever the per-frame deinterlace
decision changes, and on a top-field-first change whenever the valid
count at the start of the frame is non-zero; a tff flip arriving while
the count is zero (as immediately after a reset) does not trigger a
reset, which is what the counterexample exploits. -/
theorem collectRefs_of_reset_update {N : Nat} (ds : DSState N) (d t : Bool)
    (i fuel : Nat) :
    collectRefs ({ ds_reset ds with deint := d, tff := t } : DSState N) i fuel = [] :=
  collectRefs_empty ({ ds_reset ds with deint := d, tff := t } : DSState N)
    (fun _ => rfl) fuel i

theorem c4_history_bounded_and_reset {N : Nat} (ds : DSState N) (buf : Nat)
    (tff deint advanced : Bool) (hlen : ds.surfaces.length ≤ N) :
    (vpp_history_step ds buf tff deint advanced).1.surfaces.length ≤ N ∧
    (vpp_history_step ds buf tff deint advanced).2.length ≤ N ∧
    (deint ≠ ds.deint → (vpp_history_step ds buf tff deint advanced).2 = []) ∧
    (0 < ds.surfaces.length → tff ≠ ds.tff →
      (vpp_history_step ds buf tff deint advanced).2 = []) := by
  cases hcond : ((deint != ds.deint) ||
      (decide (0 < ds.surfaces.length) && (tff != ds.tff))) with
  | true =>
    cases hda : deint && advanced with
    | false =>
      simp [vpp_history_step, hcond, hda, ds_reset]
    | true =>
      simp [vpp_history_step, hcond, hda, ds_set_surfaces, ds_add_buffer,
        collectRefs_of_reset_update]
  | false =>
    have hb : (decide (0 < ds.surfaces.length) && (tff != ds.tff)) = false := by
      cases h : (decide (0 < ds.surfaces.length) && (tff != ds.tff)) <;> simp_all
    have hd : deint = ds.deint := by
      cases deint <;> cases h : ds.deint <;> simp_all
    cases hda : deint && advanced with
    | false =>
      simp [vpp_history_step, hcond, hda, hlen]
    | true =>
      refine ⟨?_, ?_, fun hne => absurd hd hne, ?_⟩
      · simp only [vpp_history_step, hcond, Bool.false_eq_true, if_false, hda,
          if_true, ds_add_buffer, ds_set_surfaces]
        exact collectRefs_length _ N 0
      · simp only [vpp_history_step, hcond, Bool.false_eq_true, if_false, hda,
          if_true, ds_add_buffer, ds_set_surfaces]
        exact collectRefs_length _ N 0
      · intro hpos htff
        exfalso
        have h1 : decide (0 < ds.surfaces.length) = true := decide_eq_true hpos
        have h2 : (tff != ds.tff) = true := by
          cases tff <;> cases h : ds.tff <;> simp_all
        rw [h1, h2] at hb
        simp at hb

/-- Witness for `c4_history_bounded_and_reset` at the concrete first
frame of the counterexample scenario. -/
theorem c4_history_bounded_and_reset_witness :
    dsInit.surfaces.length ≤ 2 ∧
    ((vpp_history_step dsInit 7 true true true).1.surfaces.length ≤ 2 ∧
    (vpp_history_step dsInit 7 true true true).2.length ≤ 2 ∧
    (true ≠ dsInit.deint → (vpp_history_step dsInit 7 true true true).2 = []) ∧
    (0 < dsInit.surfaces.length → true ≠ dsInit.tff →
      (vpp_history_step dsInit 7 true true true).2 = [])) :=
  ⟨by decide, c4_history_bounded_and_reset dsInit 7 true true true (by decide)⟩

/-! ## Transform fallback cascade
(`gst_vaapipostprocess_transform`, lines 1536-1592, core lines 1559-1578) -/

/-- The `GstFlowReturn` values the cascade distinguishes.
`notSupported` is `GST_FLOW_NOT_SUPPORTED`. -/
inductive FlowRet where
  | ok
  | notSupported
  | error
  | eos
  deriving DecidableEq, Repr

/-- The three per-frame processing paths. -/
inductive PathId where
  | vpp
  | basic
  | passthrough
  deriving DecidableEq, Repr

/-- The decision core of `gst_vaapipostprocess_transform` (lines
1559-1578): `ret = GST_FLOW_NOT_SUPPORTED; if (postprocess->flags) { if
(has_vpp) { ret = process_vpp; if (ret != NOT_SUPPORTED) goto done; }
if (flags & DEINTERLACE) { ret = process; if (ret != NOT_SUPPORTED)
goto done; } } ret = passthrough;`.  Inputs are the element flags state
and the status each path would return; the result is the flow return
together with the paths invoked, in order. -/
def transform_core (flagsNonzero flagDeinterlace hasVpp : Bool)
    (vppRet basicRet passRet : FlowRet) : FlowRet × List PathId :=
  if flagsNonzero then
    if hasVpp then
      if vppRet != .notSupported then (vppRet, [.vpp])
      else if flagDeinterlace then
        if basicRet != .notSupported then (basicRet, [.vpp, .basic])
        else (passRet, [.vpp, .basic, .passthrough])
      else (passRet, [.vpp, .passthrough])
    else if flagDeinterlace then
      if basicRet != .notSupported then (basicRet, [.basic])
      else (passRet, [.basic, .passthrough])
    else (passRet, [.passthrough])
  else (passRet, [.passthrough])

/-! ### Claim C7 -/

/-- **C7.**  With pending operation flags and a usable backend, the
hardware VPP path is always tried first; any status other than
operation-unsupported — success or any error — is returned at once
without trying a simpler path; exactly on operation-unsupported the
element falls back to the basic path when deinterlacing is flagged
(whose non-unsupported status is then final) and to pure passthrough
otherwise or when the basic path is also unsupported. -/
theorem c7_transform_fallback (flagDeinterlace : Bool)
    (vppRet basicRet passRet : FlowRet) :
    ((transform_core true flagDeinterlace true vppRet basicRet passRet).2.head? =
      some .vpp) ∧
    (vppRet ≠ .notSupported →
      transform_core true flagDeinterlace true vppRet basicRet passRet =
        (vppRet, [.vpp])) ∧
    (vppRet = .notSupported → flagDeinterlace = true → basicRet ≠ .notSupported →
      transform_core true flagDeinterlace true vppRet basicRet passRet =
        (basicRet, [.vpp, .basic])) ∧
    (vppRet = .notSupported → flagDeinterlace = true → basicRet = .notSupported →
      transform_core true flagDeinterlace true vppRet basicRet passRet =
        (passRet, [.vpp, .basic, .passthrough])) ∧
    (vppRet = .notSupported → flagDeinterlace = false →
      transform_core true flagDeinterlace true vppRet basicRet passRet =
        (passRet, [.vpp, .passthrough])) ∧
    (PathId.basic ∈ (transform_core true flagDeinterlace true vppRet basicRet
      passRet).2 → vppRet = .notSupported) ∧
    (PathId.passthrough ∈ (transform_core true flagDeinterlace true vppRet basicRet
      passRet).2 → vppRet = .notSupported) := by
  cases flagDeinterlace <;> cases vppRet <;> cases basicRet <;> cases passRet <;>
    simp_all [transform_core]

/-- Witness for `c7_transform_fallback`: a VPP unsupported status with
deinterlacing flagged falls back to the basic path. -/
theorem c7_transform_fallback_witness :
    ((transform_core true true true .notSupported .ok .ok).2.head? = some .vpp) ∧
    (FlowRet.notSupported ≠ FlowRet.notSupported →
      transform_core true true true .notSupported .ok .ok =
        (.notSupported, [.vpp])) ∧
    (FlowRet.notSupported = FlowRet.notSupported → true = true →
      FlowRet.ok ≠ FlowRet.notSupported →
      transform_core true true true .notSupported .ok .ok = (.ok, [.vpp, .basic])) ∧
    (FlowRet.notSupported = FlowRet.notSupported → true = true →
      FlowRet.ok = FlowRet.notSupported →
      transform_core true true true .notSupported .ok .ok =
        (.ok, [.vpp, .basic, .passthrough])) ∧
    (FlowRet.notSupported = FlowRet.notSupported → true = false →
      transform_core true true true .notSupported .ok .ok =
        (.ok, [.vpp, .passthrough])) ∧
    (PathId.basic ∈ (transform_core true true true .notSupported .ok .ok).2 →
      FlowRet.notSupported = FlowRet.notSupported) ∧
    (PathId.passthrough ∈ (transform_core true true true .notSupported .ok .ok).2 →
      FlowRet.notSupported = FlowRet.notSupported) :=
  c7_transform_fallback true .notSupported .ok .ok

/-! ## Caps negotiation and the advanced-deinterlacing format guard
(`is_native_video_format`, lines 1688-1696; `native_formats`, lines
105-106; `gst_vaapipostprocess_set_caps`, lines 1698-1769;
`gst_vaapipostprocess_update_sink_caps`, lines 1246-1268;
`gst_vaapipostprocess_update_src_caps`, lines 1270-1290;
`video_info_changed`, lines 1217-1226) -/

/-- The pixel formats the negotiation code distinguishes. -/
inductive VFormat where
  | nv12
  | yv12
  | i420
  | yuy2
  | rgba
  | encoded
  | other
  deriving DecidableEq, Repr

/-- `native_formats` (lines 105-106): NV12, YV12 and I420. -/
def native_formats : List VFormat := [.nv12, .yv12, .i420]

/-- `is_native_video_format` (lines 1688-1696): linear scan of
`native_formats`. -/
def is_native_video_format (fmt : VFormat) : Bool :=
  native_formats.contains fmt

/-- Modelled from the spec: `DEFAULT_FORMAT` (defined in the element's
header, not under src/) is the sentinel opaque/encoded pixel format. -/
def DEFAULT_FORMAT : VFormat := .encoded

/-- A parsed caps structure / `GstVideoInfo` as far as negotiation
reads it. -/
structure VideoInfo where
  format : VFormat
  width : Nat
  height : Nat
  interlaceMode : InterlaceMode
  fps_n : Nat
  fps_d : Nat
  deriving DecidableEq, Repr

/-- `video_info_changed` (lines 1217-1226): the external
`gst_video_info_changed` — modelled from the spec as a change of pixel
format or size, the negotiated properties §4.2 names — or a change of
interlace mode. -/
def video_info_changed (a b : VideoInfo) : Bool :=
  (a.format != b.format) || (a.width != b.width) || (a.height != b.height) ||
    (a.interlaceMode != b.interlaceMode)

/-- Modelled from the spec: `is_deinterlace_enabled` (element header, not
under src/): deinterlacing is enabled when the mode forces it, or in auto
mode when the sink declares an interlaced (non-progressive) stream. -/
def is_deinterlace_enabled (mode : DeintMode) (vi : VideoInfo) : Bool :=
  mode == .interlaced || (mode == .auto && vi.interlaceMode != .progressive)

/-- The element state read and written during `set_caps`.
`filterGeneration` counts Filter Engine rebuilds: `destroy` followed by
`create` (lines 1727-1730) increments it, so an unchanged generation
means no teardown or rebuild happened. -/
structure ElemState where
  deinterlace_mode : DeintMode
  deinterlace_method : DeintMethod
  sinkpad_info : VideoInfo
  srcpad_info : VideoInfo
  flag_deinterlace : Bool
  flag_format : Bool
  flag_size : Bool
  pp_format : VFormat
  fieldDuration : Nat
  filterGeneration : Nat
  has_vpp : Bool
  same_caps : Bool
  deriving Repr

/-- External outcomes consulted after a rebuild: creation of the new
binding, the plugin-base caps update, colorimetry push and surface-pool
setup. -/
structure SetCapsEnv where
  create_ok : Bool
  plugin_set_caps_ok : Bool
  colorimetry_ok : Bool
  pool_ok : Bool
  deriving Repr

/-- `gst_vaapipostprocess_update_sink_caps` (lines 1246-1268): update the
stored sink info when it changed, raise the deinterlace flag when
deinterlacing is enabled for these caps, and recompute the field
duration.  Caps parsing always succeeds in the model, so the C out-param
pair `(TRUE, *caps_changed_ptr)` becomes the returned pair. -/
def gst_vaapipostprocess_update_sink_caps (p : ElemState) (caps : VideoInfo) :
    ElemState × Bool :=
  let changed := video_info_changed p.sinkpad_info caps
  let p := if changed then { p with sinkpad_info := caps } else p
  let vi := p.sinkpad_info
  let deinterlace := is_deinterlace_enabled p.deinterlace_mode vi
  let p := if deinterlace then { p with flag_deinterlace := true } else p
  let p := { p with
    fieldDuration := field_duration deinterlace vi.fps_n vi.fps_d }
  (p, changed)

/-- `gst_vaapipostprocess_update_src_caps` (lines 1270-1290): update the
stored source info when it changed, raise the format flag when the
configured format differs from both the sink format and the default, and
the size flag when source and sink extents differ. -/
def gst_vaapipostprocess_update_src_caps (p : ElemState) (caps : VideoInfo) :
    ElemState × Bool :=
  let changed := video_info_changed p.srcpad_info caps
  let p := if changed then { p with srcpad_info := caps } else p
  let p := if p.pp_format != p.sinkpad_info.format &&
      p.pp_format != DEFAULT_FORMAT then { p with flag_format := true } else p
  let p := if p.srcpad_info.width != p.sinkpad_info.width ||
      p.srcpad_info.height != p.sinkpad_info.height then
    { p with flag_size := true } else p
  (p, changed)

/-- `gst_vaapipostprocess_set_caps` (lines 1698-1769, body under the
lock): update sink caps; reject advanced deinterlacing on a non-native
sink format before anything is torn down; update source caps; on any
caps change destroy and re-create the Filter Engine binding (generation
bump) and push the caps to the plugin base; then colorimetry and source
buffer pool.  Returns the `ret` flag and the final state. -/
def gst_vaapipostprocess_set_caps (env : SetCapsEnv) (p : ElemState)
    (caps out_caps : VideoInfo) : Bool × ElemState :=
  let r1 := gst_vaapipostprocess_update_sink_caps p caps
  let p1 := r1.1
  let sink_caps_changed := r1.2
  if deint_method_is_advanced p1.deinterlace_method &&
      !(is_native_video_format caps.format) then
    (false, p1)
  else
    let r2 := gst_vaapipostprocess_update_src_caps p1 out_caps
    let p2 := r2.1
    let src_caps_changed := r2.2
    if sink_caps_changed || src_caps_changed then
      let p3 := { p2 with filterGeneration := p2.filterGeneration + 1 }
      if !env.create_ok then (false, p3)
      else if !env.plugin_set_caps_ok then (false, p3)
      else if p3.has_vpp && !env.colorimetry_ok then (false, p3)
      else if !env.pool_ok then (false, p3)
      else (true, { p3 with same_caps := caps == out_caps })
    else
      if p2.has_vpp && !env.colorimetry_ok then (false, p2)
      else if !env.pool_ok then (false, p2)
      else (true, { p2 with same_caps := caps == out_caps })

theorem update_sink_caps_preserves (p : ElemState) (caps : VideoInfo) :
    (gst_vaapipostprocess_update_sink_caps p caps).1.deinterlace_method =
      p.deinterlace_method ∧
    (gst_vaapipostprocess_update_sink_caps p caps).1.filterGeneration =
      p.filterGeneration := by
  unfold gst_vaapipostprocess_update_sink_caps
  dsimp only
  constructor <;> (split <;> split <;> rfl)

/-! ### Claim C8 -/

/-- **C8.**  When the configured deinterlace method is advanced
(motion-adaptive or motion-compensated) and the sink pixel format is not
one of the native formats NV12/YV12/I420, `set_caps` fails, and it fails
before any Filter Engine teardown or rebuild: the filter generation of
the resulting state equals the incoming one. -/
theorem c8_advanced_deint_requires_native (env : SetCapsEnv) (p : ElemState)
    (caps out_caps : VideoInfo)
    (hadv : deint_method_is_advanced p.deinterlace_method = true)
    (hnat : is_native_video_format caps.format = false) :
    (gst_vaapipostprocess_set_caps env p caps out_caps).1 = false ∧
    (gst_vaapipostprocess_set_caps env p caps out_caps).2.filterGeneration =
      p.filterGeneration := by
  have hpres := update_sink_caps_preserves p caps
  unfold gst_vaapipostprocess_set_caps
  rw [if_pos]
  · exact ⟨rfl, hpres.2⟩
  · rw [hpres.1, hadv, hnat]
    rfl

/-- Witness for `c8_advanced_deint_requires_native`: motion-adaptive
deinterlacing with a YUY2 sink format. -/
theorem c8_advanced_deint_requires_native_witness :
    (deint_method_is_advanced DeintMethod.motionAdaptive = true ∧
      is_native_video_format VFormat.yuy2 = false) ∧
    ((gst_vaapipostprocess_set_caps ⟨true, true, true, true⟩
        ⟨.auto, .motionAdaptive, ⟨.nv12, 640, 480, .interleaved, 30, 1⟩,
          ⟨.nv12, 640, 480, .progressive, 30, 1⟩, false, false, false,
          .encoded, 0, 0, true, false⟩
        ⟨.yuy2, 640, 480, .interleaved, 30, 1⟩
        ⟨.yuy2, 640, 480, .progressive, 30, 1⟩).1 = false ∧
      (gst_vaapipostprocess_set_caps ⟨true, true, true, true⟩
        ⟨.auto, .motionAdaptive, ⟨.nv12, 640, 480, .interleaved, 30, 1⟩,
          ⟨.nv12, 640, 480, .progressive, 30, 1⟩, false, false, false,
          .encoded, 0, 0, true, false⟩
        ⟨.yuy2, 640, 480, .interleaved, 30, 1⟩
        ⟨.yuy2, 640, 480, .progressive, 30, 1⟩).2.filterGeneration =
        (⟨.auto, .motionAdaptive, ⟨.nv12, 640, 480, .interleaved, 30, 1⟩,
          ⟨.nv12, 640, 480, .progressive, 30, 1⟩, false, false, false,
          .encoded, 0, 0, true, false⟩ : ElemState).filterGeneration) :=
  ⟨⟨rfl, rfl⟩, c8_advanced_deint_requires_native ⟨true, true, true, true⟩ _ _ _ rfl rfl⟩

/-! ## Crop-metadata rotation (`rotate_crop_meta`, lines 797-847)

The crop rectangle fields and the video-meta extents are C `guint`s;
their arithmetic is unsigned 32-bit, so subtraction is modelled modulo
`2^32`. -/

def M32 : Nat := 4294967296

/-- C unsigned 32-bit subtraction `a - b` for operands below `2^32`. -/
def usub (a b : Nat) : Nat := (a + M32 - b) % M32

/-- The extents of the `GstVideoMeta` consulted by `rotate_crop_meta`. -/
structure VMeta where
  width : Nat
  height : Nat
  deriving DecidableEq, Repr

/-- A `GstVideoCropMeta` rectangle. -/
structure CropRect where
  x : Nat
  y : Nat
  width : Nat
  height : Nat
  deriving DecidableEq, Repr

/-- `rotate_crop_meta` (lines 797-847): remap the crop rectangle by the
filter's video direction; the 90-degree and diagonal cases also swap the
rectangle's width and height.  Directions not listed (identity, auto)
fall into the default case and leave the rectangle unchanged. -/
def rotate_crop_meta (dir : Direction) (vmeta : VMeta) (c : CropRect) : CropRect :=
  match dir with
  | .horiz => { c with x := usub (usub vmeta.width c.width) c.x }
  | .vert => { c with y := usub (usub vmeta.height c.height) c.y }
  | .rot90r =>
      { x := usub (usub vmeta.height c.height) c.y, y := c.x,
        width := c.height, height := c.width }
  | .rot180 =>
      { c with
        x := usub (usub vmeta.width c.width) c.x
        y := usub (usub vmeta.height c.height) c.y }
  | .rot90l =>
      { x := c.y, y := usub (usub vmeta.width c.width) c.x,
        width := c.height, height := c.width }
  | .urLl =>
      { x := usub (usub vmeta.height c.height) c.y,
        y := usub (usub vmeta.width c.width) c.x,
        width := c.height, height := c.width }
  | .ulLr => { x := c.y, y := c.x, width := c.height, height := c.width }
  | _ => c

theorem usub_usub_cancel (a y : Nat) (hy : y < M32) :
    usub a (usub a y) = y := by
  simp only [usub, M32] at hy ⊢
  omega

/-! ### Claim C9 -/

/-- **C9.**  Applying `rotate_crop_meta` with the identity direction
leaves any crop rectangle unchanged, and applying the 90-right transform
followed by the 90-left transform with the frame dimensions swapped
restores the original rectangle (for in-range guint values). -/
theorem c9_rotate_crop_roundtrip (vm : VMeta) (c : CropRect)
    (hy : c.y < M32) :
    rotate_crop_meta .identity vm c = c ∧
    rotate_crop_meta .rot90l ⟨vm.height, vm.width⟩
      (rotate_crop_meta .rot90r vm c) = c := by
  refine ⟨rfl, ?_⟩
  unfold rotate_crop_meta
  cases c with
  | mk x y w h =>
    simp only
    rw [usub_usub_cancel _ _ hy]

/-- Witness for `c9_rotate_crop_roundtrip` on a concrete 640x480 frame
with crop rectangle (10, 20, 600, 400). -/
theorem c9_rotate_crop_roundtrip_witness :
    (20 : Nat) < M32 ∧
    (rotate_crop_meta .identity ⟨640, 480⟩ ⟨10, 20, 600, 400⟩ =
        ⟨10, 20, 600, 400⟩ ∧
      rotate_crop_meta .rot90l ⟨(⟨640, 480⟩ : VMeta).height, (⟨640, 480⟩ : VMeta).width⟩
        (rotate_crop_meta .rot90r ⟨640, 480⟩ ⟨10, 20, 600, 400⟩) =
        ⟨10, 20, 600, 400⟩) :=
  ⟨by decide, c9_rotate_crop_roundtrip ⟨640, 480⟩ ⟨10, 20, 600, 400⟩ (by decide)⟩

end VaapiPostprocess
